import Mathlib

/-!
# TriangleExample (src/triangle/TriangleExample.cpp)

A shallow embedding of the `TriangleExample` application class.  The class is glue
over the rendering framework: everything it does is to call into the framework
(`AbstractExample`, `Scene`, `Camera`, `Triangle`, `swapBuffers`).  The embedding
therefore records the framework functions the class enters, in order, the ones the
language runs without a written call included (default construction of the `scene`
member, destruction of constructed subobjects when the constructor is left by an
exception).  The framework's behaviour is a parameter: each call either returns
normally or raises an error, and `new Camera(...)` yields an address chosen by the
framework.
-/

namespace Magnum
namespace Examples

/-- Value of type `Math::Vector2<GLsizei>`: two signed integer components.  The class
performs no arithmetic on them, it only passes the value on. -/
structure Vector2 where
  x : Int
  y : Int
deriving DecidableEq, Repr

/-- Address of a `Scene` object. -/
abbrev ScenePtr := Nat

/-- Address of a `Camera` object, as yielded by `new Camera(...)`. -/
abbrev CameraPtr := Nat

/-- The framework functions the class enters.  Written in the text:
`AbstractExample(argc, argv, title)` (line 26), `new Camera(parent)` (line 28),
`new Triangle(parent)` (line 31), `cam->setViewport(size)` (line 36),
`cam->draw()` (line 40) and `swapBuffers()` (line 41).  Run by the language for the
member `Scene scene;` (line 45) and the base class: `Scene::Scene()` on the member at
address `self`, and, when the constructor is left by an exception, `Scene::~Scene()`
on it and `AbstractExample::~AbstractExample()`. -/
inductive Call where
  | abstractExample (argc : Int) (argv : List String) (title : String)
  | sceneCtor (self : ScenePtr)
  | sceneDtor (self : ScenePtr)
  | abstractExampleDtor
  | newCamera (parent : ScenePtr)
  | newTriangle (parent : ScenePtr)
  | setViewport (cam : CameraPtr) (size : Vector2)
  | draw (cam : CameraPtr)
  | swapBuffers
deriving DecidableEq, Repr

/-- Ways in which running code of the class can end abnormally: the `camera` pointer is
dereferenced while it was never assigned, or a framework call raised `e`. -/
inductive Fault (ε : Type) where
  | unsetCamera
  | raised (e : ε)
deriving DecidableEq, Repr

/-- The framework the class runs against.  `raises hist c` tells whether call `c`,
issued after the calls `hist`, raises (and which error); `alloc hist` is the address
that a `new Camera(...)` expression issued after `hist` evaluates to. -/
structure Framework (ε : Type) where
  raises : List Call → Call → Option ε
  alloc : List Call → CameraPtr

/-- Outcome of running a piece of code: every call issued so far, oldest first, and
either the fault that ended the run or the value it produced. -/
structure Run (ε α : Type) where
  trace : List Call
  result : Except (Fault ε) α

/-- Sequencing of statements: a fault ends the run at once (nothing in the class
catches), otherwise the rest runs after the calls issued so far. -/
def Run.andThen {ε α β : Type} (r : Run ε α) (k : α → List Call → Run ε β) : Run ε β :=
  match r.result with
  | .error f => ⟨r.trace, .error f⟩
  | .ok a => k a r.trace

/-- Leaving a constructor by an exception: the subobjects constructed so far are
destroyed, which enters the destructors `dtors` in that order, and the exception goes
on to the caller.  A run that produced its value is left as it is.  Destructors are
taken not to raise: an exception from a destructor during unwinding ends the program. -/
def Run.unwind {ε α : Type} (r : Run ε α) (dtors : List Call) : Run ε α :=
  match r.result with
  | .error f => ⟨r.trace ++ dtors, .error f⟩
  | .ok a => ⟨r.trace, .ok a⟩

/-- Issue one call to the framework after the calls `hist`. -/
def call {ε : Type} (fw : Framework ε) (hist : List Call) (c : Call) : Run ε Unit :=
  match fw.raises hist c with
  | some e => ⟨hist ++ [c], .error (.raised e)⟩
  | none => ⟨hist ++ [c], .ok ()⟩

/-- The expression `ptr->...` on the `camera` member: a pointer that was never assigned
has no object to address. -/
def deref {ε : Type} (ptr : Option CameraPtr) (hist : List Call) : Run ε CameraPtr :=
  match ptr with
  | none => ⟨hist, .error .unsetCamera⟩
  | some p => ⟨hist, .ok p⟩

/-- Data members of the class (lines 45-46).  `scene` is the `Scene` subobject, known
here by its address (the value of `&scene`); `camera` is the raw `Camera*`, `none`
while unassigned. -/
structure TriangleExample where
  scene : ScenePtr
  camera : Option CameraPtr
deriving DecidableEq, Repr

/-- The constructor (lines 26-32), run on storage in which the `scene` member lies at
`sceneAddr`: base-class initialiser with the fixed title; default construction of the
member `scene` (it has no initialiser, `camera` is left unassigned); then the body,
`camera = new Camera(&scene)` and `new Triangle(&scene)` whose result is dropped.
An exception after the base class is constructed destroys it on the way out, and one
after `scene` is constructed destroys `scene` first. -/
def TriangleExample.ctor {ε : Type} (fw : Framework ε) (sceneAddr : ScenePtr)
    (argc : Int) (argv : List String) (hist : List Call) : Run ε TriangleExample :=
  (call fw hist (.abstractExample argc argv "Triangle example")).andThen fun _ h1 =>
  ((call fw h1 (.sceneCtor sceneAddr)).andThen fun _ h2 =>
    ((call fw h2 (.newCamera sceneAddr)).andThen fun _ h3 =>
      (call fw h3 (.newTriangle sceneAddr)).andThen fun _ h4 =>
      (⟨h4, .ok { scene := sceneAddr, camera := some (fw.alloc h2) }⟩ :
        Run ε TriangleExample)).unwind [.sceneDtor sceneAddr]).unwind [.abstractExampleDtor]

/-- The hook `viewportEvent(size)` (lines 35-37): `camera->setViewport(size)`.  The
state after the hook is returned; no member is assigned. -/
def TriangleExample.viewportEvent {ε : Type} (fw : Framework ε) (self : TriangleExample)
    (size : Vector2) (hist : List Call) : Run ε TriangleExample :=
  (deref self.camera hist).andThen fun cam h0 =>
  (call fw h0 (.setViewport cam size)).andThen fun _ h1 =>
  ⟨h1, .ok self⟩

/-- The hook `drawEvent()` (lines 39-42): `camera->draw(); swapBuffers();`.  The state
after the hook is returned; no member is assigned. -/
def TriangleExample.drawEvent {ε : Type} (fw : Framework ε) (self : TriangleExample)
    (hist : List Call) : Run ε TriangleExample :=
  (deref self.camera hist).andThen fun cam h0 =>
  (call fw h0 (.draw cam)).andThen fun _ h1 =>
  (call fw h1 .swapBuffers).andThen fun _ h2 =>
  ⟨h2, .ok self⟩

/-- The two callbacks the framework makes on the application object. -/
inductive Event where
  | viewportEvent (size : Vector2)
  | drawEvent
deriving DecidableEq, Repr

/-- Delivery of one callback. -/
def TriangleExample.handle {ε : Type} (fw : Framework ε) (self : TriangleExample)
    (ev : Event) (hist : List Call) : Run ε TriangleExample :=
  match ev with
  | .viewportEvent size => self.viewportEvent fw size hist
  | .drawEvent => self.drawEvent fw hist

/-- Delivery of a finite sequence of callbacks, in order; a fault leaves the hook and
ends the sequence. -/
def TriangleExample.dispatch {ε : Type} (fw : Framework ε) (self : TriangleExample)
    (evs : List Event) (hist : List Call) : Run ε TriangleExample :=
  match evs with
  | [] => ⟨hist, .ok self⟩
  | ev :: rest => (self.handle fw ev hist).andThen fun app h => app.dispatch fw rest h

/-- Construction of the application followed by a finite sequence of callbacks. -/
def TriangleExample.session {ε : Type} (fw : Framework ε) (sceneAddr : ScenePtr)
    (argc : Int) (argv : List String) (evs : List Event) : Run ε TriangleExample :=
  (TriangleExample.ctor fw sceneAddr argc argv []).andThen fun app h => app.dispatch fw evs h

/-- A framework in which every call returns normally; `new Camera(...)` yields the
addresses given by `alloc`. -/
def Framework.normal (ε : Type) (alloc : List Call → CameraPtr) : Framework ε :=
  ⟨fun _ _ => none, alloc⟩

/-- The call is a `swapBuffers()`. -/
def Call.isSwapBuffers : Call → Bool
  | .swapBuffers => true
  | _ => false

/-- The call is a `setViewport(...)` on some camera. -/
def Call.isSetViewport : Call → Bool
  | .setViewport _ _ => true
  | _ => false

/-- The call is a `draw()` on some camera. -/
def Call.isDraw : Call → Bool
  | .draw _ => true
  | _ => false

/-- The call brings an object into being: the base-class context, the scene or an
object created under a scene. -/
def Call.isCreation : Call → Bool
  | .abstractExample _ _ _ => true
  | .sceneCtor _ => true
  | .newCamera _ => true
  | .newTriangle _ => true
  | _ => false

/-- The call creates an object with a scene as its parent, which registers it there. -/
def Call.registersInto (s : ScenePtr) : Call → Bool
  | .newCamera p => p == s
  | .newTriangle p => p == s
  | _ => false

/-- Receiver and argument of the most recent `setViewport` call of a trace, if any. -/
def lastSetViewport : List Call → Option (CameraPtr × Vector2)
  | [] => none
  | c :: rest =>
    match lastSetViewport rest with
    | some r => some r
    | none =>
      match c with
      | .setViewport cam size => some (cam, size)
      | _ => none

/-- The callback is a `drawEvent`. -/
def Event.isDrawEvent : Event → Bool
  | .drawEvent => true
  | _ => false

/-- The camera address that the constructor stores when it starts after no calls:
the value of `new Camera(&scene)`, evaluated after the base-class initialiser and the
construction of the `scene` member. -/
def createdCamera {ε : Type} (fw : Framework ε) (s : ScenePtr) (argc : Int)
    (argv : List String) : CameraPtr :=
  fw.alloc [.abstractExample argc argv "Triangle example", .sceneCtor s]

/-- The calls one callback issues on camera `cam` when every call returns normally. -/
def eventCalls (cam : CameraPtr) : Event → List Call
  | .viewportEvent size => [.setViewport cam size]
  | .drawEvent => [.draw cam, .swapBuffers]

/-! ## Lemmas on the embedding -/

theorem call_normal (ε : Type) (alloc : List Call → CameraPtr) (hist : List Call) (c : Call) :
    call (Framework.normal ε alloc) hist c = ⟨hist ++ [c], .ok ()⟩ := by
  simp [call, Framework.normal]

theorem ctor_normal (ε : Type) (alloc : List Call → CameraPtr) (s : ScenePtr) (argc : Int)
    (argv : List String) (hist : List Call) :
    TriangleExample.ctor (Framework.normal ε alloc) s argc argv hist =
      ⟨hist ++ [.abstractExample argc argv "Triangle example", .sceneCtor s, .newCamera s,
          .newTriangle s],
        .ok ⟨s, some (alloc (hist ++ [.abstractExample argc argv "Triangle example",
          .sceneCtor s]))⟩⟩ := by
  simp [TriangleExample.ctor, call_normal, Run.andThen, Run.unwind]
  rfl

theorem handle_normal (ε : Type) (alloc : List Call → CameraPtr) (self : TriangleExample)
    (cam : CameraPtr) (hc : self.camera = some cam) (ev : Event) (hist : List Call) :
    self.handle (Framework.normal ε alloc) ev hist = ⟨hist ++ eventCalls cam ev, .ok self⟩ := by
  cases ev <;>
    simp [TriangleExample.handle, TriangleExample.viewportEvent, TriangleExample.drawEvent,
      deref, hc, call_normal, Run.andThen, eventCalls]

theorem dispatch_normal (ε : Type) (alloc : List Call → CameraPtr) (self : TriangleExample)
    (cam : CameraPtr) (hc : self.camera = some cam) (evs : List Event) (hist : List Call) :
    self.dispatch (Framework.normal ε alloc) evs hist =
      ⟨hist ++ evs.flatMap (eventCalls cam), .ok self⟩ := by
  induction evs generalizing hist with
  | nil => simp [TriangleExample.dispatch]
  | cons ev rest ih =>
    simp [TriangleExample.dispatch, handle_normal ε alloc self cam hc, Run.andThen, ih]

theorem session_normal (ε : Type) (alloc : List Call → CameraPtr) (s : ScenePtr) (argc : Int)
    (argv : List String) (evs : List Event) :
    TriangleExample.session (Framework.normal ε alloc) s argc argv evs =
      ⟨[.abstractExample argc argv "Triangle example", .sceneCtor s, .newCamera s,
          .newTriangle s] ++
          evs.flatMap (eventCalls (createdCamera (Framework.normal ε alloc) s argc argv)),
        .ok ⟨s, some (createdCamera (Framework.normal ε alloc) s argc argv)⟩⟩ := by
  have hctor := ctor_normal ε alloc s argc argv []
  simp only [List.nil_append] at hctor
  simp only [TriangleExample.session, hctor, Run.andThen]
  exact dispatch_normal ε alloc _ _ rfl evs _

theorem drawEvent_eq {ε : Type} (fw : Framework ε) (s : ScenePtr) (cam : CameraPtr)
    (hist : List Call) :
    TriangleExample.drawEvent fw ⟨s, some cam⟩ hist =
      match fw.raises hist (.draw cam) with
      | some e => ⟨hist ++ [.draw cam], .error (.raised e)⟩
      | none =>
        match fw.raises (hist ++ [.draw cam]) .swapBuffers with
        | some e => ⟨hist ++ [.draw cam, .swapBuffers], .error (.raised e)⟩
        | none => ⟨hist ++ [.draw cam, .swapBuffers], .ok ⟨s, some cam⟩⟩ := by
  cases h1 : fw.raises hist (.draw cam) with
  | some e => simp [TriangleExample.drawEvent, deref, call, Run.andThen, h1]
  | none =>
    cases h2 : fw.raises (hist ++ [.draw cam]) .swapBuffers with
    | some e => simp [TriangleExample.drawEvent, deref, call, Run.andThen, h1, h2]
    | none => simp [TriangleExample.drawEvent, deref, call, Run.andThen, h1, h2]

theorem viewportEvent_eq {ε : Type} (fw : Framework ε) (s : ScenePtr) (cam : CameraPtr)
    (size : Vector2) (hist : List Call) :
    TriangleExample.viewportEvent fw ⟨s, some cam⟩ size hist =
      match fw.raises hist (.setViewport cam size) with
      | some e => ⟨hist ++ [.setViewport cam size], .error (.raised e)⟩
      | none => ⟨hist ++ [.setViewport cam size], .ok ⟨s, some cam⟩⟩ := by
  cases h1 : fw.raises hist (.setViewport cam size) with
  | some e => simp [TriangleExample.viewportEvent, deref, call, Run.andThen, h1]
  | none => simp [TriangleExample.viewportEvent, deref, call, Run.andThen, h1]

theorem drawEvent_unset {ε : Type} (fw : Framework ε) (s : ScenePtr) (hist : List Call) :
    TriangleExample.drawEvent fw ⟨s, none⟩ hist = ⟨hist, .error .unsetCamera⟩ := by
  simp [TriangleExample.drawEvent, deref, Run.andThen]

/-- Whatever the framework does, one callback on an object whose camera is set only
adds calls of that callback, and ends in the same state or with the error raised. -/
theorem handle_general {ε : Type} (fw : Framework ε) (s : ScenePtr) (cam : CameraPtr)
    (ev : Event) (hist : List Call) :
    ∃ added, (TriangleExample.handle fw ⟨s, some cam⟩ ev hist).trace = hist ++ added ∧
      (∀ c ∈ added, c ∈ eventCalls cam ev) ∧
      ((TriangleExample.handle fw ⟨s, some cam⟩ ev hist).result = .ok ⟨s, some cam⟩ ∨
        ∃ e, (TriangleExample.handle fw ⟨s, some cam⟩ ev hist).result = .error (.raised e)) := by
  cases ev with
  | viewportEvent size =>
    simp only [TriangleExample.handle, viewportEvent_eq]
    cases h1 : fw.raises hist (.setViewport cam size) with
    | some e => exact ⟨[.setViewport cam size], rfl, by simp [eventCalls], Or.inr ⟨e, rfl⟩⟩
    | none => exact ⟨[.setViewport cam size], rfl, by simp [eventCalls], Or.inl rfl⟩
  | drawEvent =>
    simp only [TriangleExample.handle, drawEvent_eq]
    cases h1 : fw.raises hist (.draw cam) with
    | some e => exact ⟨[.draw cam], rfl, by simp [eventCalls], Or.inr ⟨e, rfl⟩⟩
    | none =>
      cases h2 : fw.raises (hist ++ [.draw cam]) .swapBuffers with
      | some e => exact ⟨[.draw cam, .swapBuffers], rfl, by simp [eventCalls], Or.inr ⟨e, rfl⟩⟩
      | none => exact ⟨[.draw cam, .swapBuffers], rfl, by simp [eventCalls], Or.inl rfl⟩

theorem dispatch_general {ε : Type} (fw : Framework ε) (s : ScenePtr) (cam : CameraPtr)
    (evs : List Event) (hist : List Call) :
    ∃ added, (TriangleExample.dispatch fw ⟨s, some cam⟩ evs hist).trace = hist ++ added ∧
      (∀ c ∈ added, ∃ ev ∈ evs, c ∈ eventCalls cam ev) ∧
      ((TriangleExample.dispatch fw ⟨s, some cam⟩ evs hist).result = .ok ⟨s, some cam⟩ ∨
        ∃ e, (TriangleExample.dispatch fw ⟨s, some cam⟩ evs hist).result =
          .error (.raised e)) := by
  induction evs generalizing hist with
  | nil => exact ⟨[], by simp [TriangleExample.dispatch], by simp, Or.inl rfl⟩
  | cons ev rest ih =>
    obtain ⟨a1, ht, hmem, hres⟩ := handle_general fw s cam ev hist
    rcases hres with hok | ⟨e, herr⟩
    · obtain ⟨a2, ht2, hmem2, hres2⟩ := ih (hist ++ a1)
      have hd : TriangleExample.dispatch fw ⟨s, some cam⟩ (ev :: rest) hist =
          TriangleExample.dispatch fw ⟨s, some cam⟩ rest (hist ++ a1) := by
        simp [TriangleExample.dispatch, Run.andThen, hok, ht]
      refine ⟨a1 ++ a2, ?_, ?_, ?_⟩
      · rw [hd, ht2, List.append_assoc]
      · intro c hc
        rcases List.mem_append.mp hc with h | h
        · exact ⟨ev, List.mem_cons_self _ _, hmem c h⟩
        · obtain ⟨ev2, hev2, hc2⟩ := hmem2 c h
          exact ⟨ev2, List.mem_cons_of_mem _ hev2, hc2⟩
      · rw [hd]; exact hres2
    · have hd : TriangleExample.dispatch fw ⟨s, some cam⟩ (ev :: rest) hist =
          ⟨hist ++ a1, .error (.raised e)⟩ := by
        simp [TriangleExample.dispatch, Run.andThen, herr, ht]
      refine ⟨a1, by rw [hd], ?_, Or.inr ⟨e, by rw [hd]⟩⟩
      intro c hc
      exact ⟨ev, List.mem_cons_self _ _, hmem c hc⟩

/-- Whatever the framework does, the constructor either completes, having entered
exactly its four calls and set both members, or ends with the error raised, having
entered only constructor calls and the destructors of what was constructed. -/
theorem ctor_general {ε : Type} (fw : Framework ε) (s : ScenePtr) (argc : Int)
    (argv : List String) :
    (∀ c ∈ (TriangleExample.ctor fw s argc argv []).trace,
        c ∈ [Call.abstractExample argc argv "Triangle example", .sceneCtor s, .newCamera s,
          .newTriangle s, .sceneDtor s, .abstractExampleDtor]) ∧
      (TriangleExample.ctor fw s argc argv [] =
          ⟨[.abstractExample argc argv "Triangle example", .sceneCtor s, .newCamera s,
              .newTriangle s], .ok ⟨s, some (createdCamera fw s argc argv)⟩⟩ ∨
        ∃ e, (TriangleExample.ctor fw s argc argv []).result = .error (.raised e)) := by
  cases h1 : fw.raises [] (.abstractExample argc argv "Triangle example") with
  | some e =>
    refine ⟨?_, Or.inr ⟨e, ?_⟩⟩ <;>
      simp [TriangleExample.ctor, call, Run.andThen, Run.unwind, h1]
  | none =>
    cases h2 : fw.raises [.abstractExample argc argv "Triangle example"] (.sceneCtor s) with
    | some e =>
      refine ⟨?_, Or.inr ⟨e, ?_⟩⟩ <;>
        simp [TriangleExample.ctor, call, Run.andThen, Run.unwind, h1, h2]
    | none =>
      cases h3 : fw.raises [.abstractExample argc argv "Triangle example", .sceneCtor s]
          (.newCamera s) with
      | some e =>
        refine ⟨?_, Or.inr ⟨e, ?_⟩⟩ <;>
          simp [TriangleExample.ctor, call, Run.andThen, Run.unwind, h1, h2, h3]
      | none =>
        cases h4 : fw.raises [.abstractExample argc argv "Triangle example", .sceneCtor s,
            .newCamera s] (.newTriangle s) with
        | some e =>
          refine ⟨?_, Or.inr ⟨e, ?_⟩⟩ <;>
            simp [TriangleExample.ctor, call, Run.andThen, Run.unwind, h1, h2, h3, h4]
        | none =>
          refine ⟨?_, Or.inl ?_⟩ <;>
            simp [TriangleExample.ctor, call, Run.andThen, Run.unwind, h1, h2, h3, h4,
              createdCamera]

theorem session_general {ε : Type} (fw : Framework ε) (s : ScenePtr) (argc : Int)
    (argv : List String) (evs : List Event) :
    ∃ added, (TriangleExample.session fw s argc argv evs).trace =
        (TriangleExample.ctor fw s argc argv []).trace ++ added ∧
      (∀ c ∈ added, ∃ ev ∈ evs, c ∈ eventCalls (createdCamera fw s argc argv) ev) ∧
      ((TriangleExample.session fw s argc argv evs).result =
          .ok ⟨s, some (createdCamera fw s argc argv)⟩ ∨
        ∃ e, (TriangleExample.session fw s argc argv evs).result = .error (.raised e)) := by
  obtain ⟨_, hres⟩ := ctor_general fw s argc argv
  rcases hres with hrun | ⟨e, herr⟩
  · have hok : (TriangleExample.ctor fw s argc argv []).result =
        .ok ⟨s, some (createdCamera fw s argc argv)⟩ := by rw [hrun]
    obtain ⟨added, ht, hmem, hr⟩ :=
      dispatch_general fw s (createdCamera fw s argc argv) evs
        (TriangleExample.ctor fw s argc argv []).trace
    have hs : TriangleExample.session fw s argc argv evs =
        TriangleExample.dispatch fw ⟨s, some (createdCamera fw s argc argv)⟩ evs
          (TriangleExample.ctor fw s argc argv []).trace := by
      simp [TriangleExample.session, Run.andThen, hok]
    exact ⟨added, by rw [hs, ht], hmem, by rw [hs]; exact hr⟩
  · have hs : TriangleExample.session fw s argc argv evs =
        ⟨(TriangleExample.ctor fw s argc argv []).trace, .error (.raised e)⟩ := by
      simp [TriangleExample.session, Run.andThen, herr]
    exact ⟨[], by rw [hs]; simp, by simp, Or.inr ⟨e, by rw [hs]⟩⟩

theorem lastSetViewport_append (a b : List Call) :
    lastSetViewport (a ++ b) =
      match lastSetViewport b with
      | some r => some r
      | none => lastSetViewport a := by
  induction a with
  | nil => cases h : lastSetViewport b <;> simp [lastSetViewport, h]
  | cons c rest ih =>
    cases h : lastSetViewport b with
    | some r => simp [lastSetViewport, ih, h]
    | none => simp [lastSetViewport, ih, h]

theorem lastSetViewport_none (b : List Call) (hb : ∀ c ∈ b, c.isSetViewport = false) :
    lastSetViewport b = none := by
  induction b with
  | nil => rfl
  | cons c rest ih =>
    have hrest := ih (fun x hx => hb x (List.mem_cons_of_mem _ hx))
    have hc := hb c (List.mem_cons_self _ _)
    cases c <;> simp_all [lastSetViewport, Call.isSetViewport]

theorem lastSetViewport_split (a b : List Call) (cam : CameraPtr) (size : Vector2)
    (hb : ∀ c ∈ b, c.isSetViewport = false) :
    lastSetViewport (a ++ .setViewport cam size :: b) = some (cam, size) := by
  rw [lastSetViewport_append]
  simp [lastSetViewport, lastSetViewport_none b hb]

theorem flatMap_replicate_drawEvent (cam : CameraPtr) (n : Nat) :
    ∀ c ∈ (List.replicate n Event.drawEvent).flatMap (eventCalls cam),
      c.isSetViewport = false := by
  intro c hc
  simp only [List.mem_flatMap, List.mem_replicate] at hc
  obtain ⟨ev, ⟨_, rfl⟩, hmem⟩ := hc
  simp [eventCalls] at hmem
  rcases hmem with rfl | rfl <;> rfl

theorem countP_swapBuffers (cam : CameraPtr) (evs : List Event) :
    List.countP Call.isSwapBuffers (evs.flatMap (eventCalls cam)) =
      List.countP Event.isDrawEvent evs := by
  induction evs with
  | nil => rfl
  | cons ev rest ih =>
    cases ev <;>
      simp [List.flatMap_cons, List.countP_append, List.countP_cons, ih, eventCalls,
        Call.isSwapBuffers, Event.isDrawEvent]

theorem eventCalls_kind (cam : CameraPtr) (ev : Event) (c : Call) (hc : c ∈ eventCalls cam ev) :
    (∃ size, c = .setViewport cam size) ∨ c = .draw cam ∨ c = .swapBuffers := by
  cases ev with
  | viewportEvent size =>
    simp [eventCalls] at hc
    exact Or.inl ⟨size, hc⟩
  | drawEvent =>
    simp [eventCalls] at hc
    rcases hc with h | h
    · exact Or.inr (Or.inl h)
    · exact Or.inr (Or.inr h)

/-- Either the constructor raised and no hook ran, or it completed with its four calls,
storing the camera that its `new Camera` yielded, and every later call is one of a
hook on that camera. -/
theorem session_cases {ε : Type} (fw : Framework ε) (s : ScenePtr) (argc : Int)
    (argv : List String) (evs : List Event) :
    ((∃ e, (TriangleExample.ctor fw s argc argv []).result = .error (.raised e)) ∧
        TriangleExample.session fw s argc argv evs =
          ⟨(TriangleExample.ctor fw s argc argv []).trace,
            (TriangleExample.ctor fw s argc argv []).result⟩) ∨
      (TriangleExample.ctor fw s argc argv [] =
          ⟨[.abstractExample argc argv "Triangle example", .sceneCtor s, .newCamera s,
              .newTriangle s],
            .ok ⟨s, some (fw.alloc [.abstractExample argc argv "Triangle example",
              .sceneCtor s])⟩⟩ ∧
        ∃ added, (TriangleExample.session fw s argc argv evs).trace =
            [.abstractExample argc argv "Triangle example", .sceneCtor s, .newCamera s,
              .newTriangle s] ++ added ∧
          ∀ c ∈ added,
            (∃ size, c = .setViewport
              (fw.alloc [.abstractExample argc argv "Triangle example", .sceneCtor s]) size) ∨
            c = .draw (fw.alloc [.abstractExample argc argv "Triangle example", .sceneCtor s]) ∨
            c = .swapBuffers) := by
  obtain ⟨_, hres⟩ := ctor_general fw s argc argv
  rcases hres with hrun | ⟨e, herr⟩
  · refine Or.inr ⟨hrun, ?_⟩
    obtain ⟨added, htr, hmem, _⟩ := session_general fw s argc argv evs
    refine ⟨added, ?_, ?_⟩
    · rw [htr, hrun]
    · intro c hc
      obtain ⟨ev, _, hin⟩ := hmem c hc
      exact eventCalls_kind _ ev c hin
  · refine Or.inl ⟨⟨e, herr⟩, ?_⟩
    simp [TriangleExample.session, Run.andThen, herr]

theorem ctor_trace_kind {ε : Type} (fw : Framework ε) (s : ScenePtr) (argc : Int)
    (argv : List String) (c : Call) (hc : c ∈ (TriangleExample.ctor fw s argc argv []).trace) :
    c.isSetViewport = false ∧ c.isDraw = false ∧ c.isSwapBuffers = false := by
  have hmem := (ctor_general fw s argc argv).1 c hc
  simp only [List.mem_cons, List.mem_singleton, List.not_mem_nil, or_false] at hmem
  rcases hmem with rfl | rfl | rfl | rfl | rfl | rfl <;> exact ⟨rfl, rfl, rfl⟩

theorem added_not_creation (cam : CameraPtr) (evs : List Event) (added : List Call)
    (h : ∀ c ∈ added, ∃ ev ∈ evs, c ∈ eventCalls cam ev) (s : ScenePtr) :
    ∀ c ∈ added, c.isCreation = false ∧ c.registersInto s = false ∧
      ((∃ size, c = .setViewport cam size) ∨ c = .draw cam ∨ c = .swapBuffers) := by
  intro c hc
  obtain ⟨ev, _, hmem⟩ := h c hc
  have hk := eventCalls_kind cam ev c hmem
  refine ⟨?_, ?_, hk⟩ <;>
    rcases hk with ⟨size, rfl⟩ | rfl | rfl <;> rfl

/-! ## Properties of the application -/

/-- C1 (as the claim states it, refuted): at `argc = 1`, `argv = ["triangle"]`, with the
`scene` member at address 64 and every framework call returning normally, the calls of
the constructor are not the three-element list [base-class initialiser, `new Camera`,
`new Triangle`]: the default construction of the `scene` member stands between the
base-class initialiser and `new Camera`. -/
theorem ctor_calls_are_not_three :
    (TriangleExample.ctor (Framework.normal Unit (fun _ => 4096)) 64 1 ["triangle"] []).trace =
        [.abstractExample 1 ["triangle"] "Triangle example", .sceneCtor 64, .newCamera 64,
          .newTriangle 64] ∧
      (TriangleExample.ctor (Framework.normal Unit (fun _ => 4096)) 64 1 ["triangle"] []).trace ≠
        [.abstractExample 1 ["triangle"] "Triangle example", .newCamera 64, .newTriangle 64] := by
  decide

/-- C1 (amended): when the framework calls return normally, the constructor, for every
`argc` and `argv` and wherever the object lies, enters exactly four framework
functions, in this order: the base-class initialiser with title "Triangle example",
the default construction of the application's own `scene` member, `new Camera` on that
scene, `new Triangle` on that same scene; so it creates exactly one scene, one camera
and one triangle, and it returns the object with that scene and the camera that
`new Camera` yielded.  Under any framework the constructor either completes in exactly
this way or ends with the error a framework call raised. -/
theorem ctor_issues_exactly_four_calls (ε : Type) (alloc : List Call → CameraPtr)
    (s : ScenePtr) (argc : Int) (argv : List String) :
    TriangleExample.ctor (Framework.normal ε alloc) s argc argv [] =
        ⟨[.abstractExample argc argv "Triangle example", .sceneCtor s, .newCamera s,
            .newTriangle s],
          .ok ⟨s, some (alloc [.abstractExample argc argv "Triangle example", .sceneCtor s])⟩⟩ ∧
      ∀ fw : Framework ε,
        TriangleExample.ctor fw s argc argv [] =
            ⟨[.abstractExample argc argv "Triangle example", .sceneCtor s, .newCamera s,
                .newTriangle s],
              .ok ⟨s, some (fw.alloc [.abstractExample argc argv "Triangle example",
                .sceneCtor s])⟩⟩ ∨
          ∃ e, (TriangleExample.ctor fw s argc argv []).result = .error (.raised e) := by
  refine ⟨?_, ?_⟩
  · simpa using ctor_normal ε alloc s argc argv []
  · intro fw
    exact (ctor_general fw s argc argv).2

/-- C2: after construction, for every callback sequence whose last `viewportEvent`
carries `size` (any callbacks `pre`, then `viewportEvent size`, then `n` draw events),
the last `setViewport` call issued is addressed to the camera created by the
constructor and carries exactly `size`; and a `drawEvent`, on any object and under any
framework, adds no `setViewport` call. -/
theorem setViewport_carries_last_size (ε : Type) (alloc : List Call → CameraPtr)
    (s : ScenePtr) (argc : Int) (argv : List String) (pre : List Event) (size : Vector2)
    (n : Nat) :
    lastSetViewport (TriangleExample.session (Framework.normal ε alloc) s argc argv
        (pre ++ .viewportEvent size :: List.replicate n .drawEvent)).trace =
        some (createdCamera (Framework.normal ε alloc) s argc argv, size) ∧
      ∀ (fw : Framework ε) (self : TriangleExample) (hist : List Call),
        ∃ added, (self.drawEvent fw hist).trace = hist ++ added ∧
          ∀ c ∈ added, c.isSetViewport = false := by
  refine ⟨?_, ?_⟩
  · rw [session_normal]
    simp only [List.flatMap_append, List.flatMap_cons, eventCalls, List.singleton_append,
      ← List.append_assoc]
    exact lastSetViewport_split _ _ _ _ (flatMap_replicate_drawEvent _ n)
  · intro fw self hist
    obtain ⟨s0, cam0⟩ := self
    cases cam0 with
    | none => exact ⟨[], by simp [drawEvent_unset], by simp⟩
    | some cam =>
      rw [drawEvent_eq]
      cases h1 : fw.raises hist (.draw cam) with
      | some e => exact ⟨[.draw cam], rfl, by simp [Call.isSetViewport]⟩
      | none =>
        cases h2 : fw.raises (hist ++ [.draw cam]) .swapBuffers with
        | some e => exact ⟨[.draw cam, .swapBuffers], rfl, by simp [Call.isSetViewport]⟩
        | none => exact ⟨[.draw cam, .swapBuffers], rfl, by simp [Call.isSetViewport]⟩

/-- C3: when the framework calls return normally, for every callback sequence applied
after construction the number of `swapBuffers` calls issued equals the number of
`drawEvent` callbacks in the sequence, and construction alone issues none. -/
theorem swapBuffers_once_per_drawEvent (ε : Type) (alloc : List Call → CameraPtr)
    (s : ScenePtr) (argc : Int) (argv : List String) (evs : List Event) :
    List.countP Call.isSwapBuffers
        (TriangleExample.session (Framework.normal ε alloc) s argc argv evs).trace =
        List.countP Event.isDrawEvent evs ∧
      List.countP Call.isSwapBuffers
        (TriangleExample.ctor (Framework.normal ε alloc) s argc argv []).trace = 0 := by
  refine ⟨?_, ?_⟩
  · rw [session_normal]
    simp [List.countP_append, countP_swapBuffers, List.countP_cons, Call.isSwapBuffers]
  · rw [ctor_normal]
    simp [List.countP_cons, Call.isSwapBuffers]

/-- C4: when the framework calls return normally, one `drawEvent` delivered at any point
after construction issues exactly `draw()` on the camera created by the constructor and
then `swapBuffers()`, and nothing before, between or after. -/
theorem drawEvent_draws_then_swaps (ε : Type) (alloc : List Call → CameraPtr)
    (s : ScenePtr) (argc : Int) (argv : List String) (evs : List Event) :
    (TriangleExample.session (Framework.normal ε alloc) s argc argv (evs ++ [.drawEvent])).trace =
      (TriangleExample.session (Framework.normal ε alloc) s argc argv evs).trace ++
        [.draw (createdCamera (Framework.normal ε alloc) s argc argv), .swapBuffers] := by
  simp [session_normal, List.flatMap_append, eventCalls]

/-- C5: under any framework and for any callback sequence applied after construction,
the run ends either in the state the constructor built, whose camera member is set to
the camera created by the constructor, or with an error raised by a framework call:
the unset-pointer branch is never taken and no hook changes a member.  When the calls
return normally the first case holds.  On the calls themselves: either the
constructor raised and the run consists of the constructor's calls alone, no hook
having run; or the constructor completed, having entered `new Camera` on its scene
and stored the address that call yielded, and every call after the constructor's four
is a `setViewport` or `draw` on exactly that address or a `swapBuffers`. -/
theorem camera_set_in_every_reachable_state (ε : Type) (fw : Framework ε)
    (alloc : List Call → CameraPtr) (s : ScenePtr) (argc : Int) (argv : List String)
    (evs : List Event) :
    ((TriangleExample.session fw s argc argv evs).result =
          .ok ⟨s, some (createdCamera fw s argc argv)⟩ ∨
        ∃ e, (TriangleExample.session fw s argc argv evs).result = .error (.raised e)) ∧
      (TriangleExample.session (Framework.normal ε alloc) s argc argv evs).result =
        .ok ⟨s, some (createdCamera (Framework.normal ε alloc) s argc argv)⟩ ∧
      (((∃ e, (TriangleExample.ctor fw s argc argv []).result = .error (.raised e)) ∧
          TriangleExample.session fw s argc argv evs =
            ⟨(TriangleExample.ctor fw s argc argv []).trace,
              (TriangleExample.ctor fw s argc argv []).result⟩) ∨
        (TriangleExample.ctor fw s argc argv [] =
            ⟨[.abstractExample argc argv "Triangle example", .sceneCtor s, .newCamera s,
                .newTriangle s],
              .ok ⟨s, some (fw.alloc [.abstractExample argc argv "Triangle example",
                .sceneCtor s])⟩⟩ ∧
          ∃ added, (TriangleExample.session fw s argc argv evs).trace =
              [.abstractExample argc argv "Triangle example", .sceneCtor s, .newCamera s,
                .newTriangle s] ++ added ∧
            ∀ c ∈ added,
              (∃ size, c = .setViewport
                (fw.alloc [.abstractExample argc argv "Triangle example", .sceneCtor s])
                size) ∨
              c = .draw (fw.alloc [.abstractExample argc argv "Triangle example",
                .sceneCtor s]) ∨
              c = .swapBuffers)) := by
  refine ⟨?_, ?_, session_cases fw s argc argv evs⟩
  · obtain ⟨_, _, _, hres⟩ := session_general fw s argc argv evs
    exact hres
  · rw [session_normal]

/-- C6: under any framework, every call issued by the callbacks after construction is a
`setViewport` or `draw` on the camera or a `swapBuffers`: none creates an object and
none registers anything into the scene.  When the calls return normally, the objects
registered into the scene over the whole run are exactly the camera and the one
triangle of the constructor. -/
theorem scene_contents_fixed_by_ctor (ε : Type) (fw : Framework ε)
    (alloc : List Call → CameraPtr) (s : ScenePtr) (argc : Int) (argv : List String)
    (evs : List Event) :
    (∃ added, (TriangleExample.session fw s argc argv evs).trace =
          (TriangleExample.ctor fw s argc argv []).trace ++ added ∧
        ∀ c ∈ added, c.isCreation = false ∧ c.registersInto s = false ∧
          ((∃ size, c = .setViewport (createdCamera fw s argc argv) size) ∨
            c = .draw (createdCamera fw s argc argv) ∨ c = .swapBuffers)) ∧
      (TriangleExample.session (Framework.normal ε alloc) s argc argv evs).trace.filter
          (Call.registersInto s) = [.newCamera s, .newTriangle s] ∧
      (TriangleExample.session (Framework.normal ε alloc) s argc argv evs).trace.filter
          Call.isCreation =
        (TriangleExample.ctor (Framework.normal ε alloc) s argc argv []).trace := by
  obtain ⟨added, htr, hmem, _⟩ := session_general fw s argc argv evs
  have hfw := added_not_creation _ evs added hmem s
  obtain ⟨added2, htr2, hmem2, _⟩ := session_general (Framework.normal ε alloc) s argc argv evs
  have hn := added_not_creation _ evs added2 hmem2 s
  refine ⟨⟨added, htr, hfw⟩, ?_, ?_⟩
  · rw [htr2, ctor_normal, List.filter_append]
    have : added2.filter (Call.registersInto s) = [] :=
      List.filter_eq_nil_iff.mpr (fun c hc => by simp [(hn c hc).2.1])
    rw [this]
    simp [List.filter_cons, Call.registersInto]
  · rw [htr2, ctor_normal, List.filter_append]
    have : added2.filter Call.isCreation = [] :=
      List.filter_eq_nil_iff.mpr (fun c hc => by simp [(hn c hc).1])
    rw [this]
    simp [List.filter_cons, Call.isCreation]

/-- C7: on an object whose camera is set, under any framework: `drawEvent` ends with an
error exactly when `draw()` raises or, `draw()` having returned, `swapBuffers()`
raises; the error is the one raised; when `draw()` raises, `swapBuffers()` is not
issued; when neither raises, `drawEvent` returns normally.  `viewportEvent` ends with
an error exactly when `setViewport` raises, with that error. -/
theorem hooks_propagate_errors_unchanged (ε : Type) (fw : Framework ε) (s : ScenePtr)
    (cam : CameraPtr) (size : Vector2) (hist : List Call) :
    (TriangleExample.drawEvent fw ⟨s, some cam⟩ hist =
        match fw.raises hist (.draw cam) with
        | some e => ⟨hist ++ [.draw cam], .error (.raised e)⟩
        | none =>
          match fw.raises (hist ++ [.draw cam]) .swapBuffers with
          | some e => ⟨hist ++ [.draw cam, .swapBuffers], .error (.raised e)⟩
          | none => ⟨hist ++ [.draw cam, .swapBuffers], .ok ⟨s, some cam⟩⟩) ∧
      ((∃ f, (TriangleExample.drawEvent fw ⟨s, some cam⟩ hist).result = .error f) ↔
        ((fw.raises hist (.draw cam)).isSome ∨
          (fw.raises (hist ++ [.draw cam]) .swapBuffers).isSome)) ∧
      (TriangleExample.viewportEvent fw ⟨s, some cam⟩ size hist =
        match fw.raises hist (.setViewport cam size) with
        | some e => ⟨hist ++ [.setViewport cam size], .error (.raised e)⟩
        | none => ⟨hist ++ [.setViewport cam size], .ok ⟨s, some cam⟩⟩) ∧
      ((∃ f, (TriangleExample.viewportEvent fw ⟨s, some cam⟩ size hist).result = .error f) ↔
        (fw.raises hist (.setViewport cam size)).isSome) := by
  refine ⟨drawEvent_eq fw s cam hist, ?_, viewportEvent_eq fw s cam size hist, ?_⟩
  · rw [drawEvent_eq]
    cases h1 : fw.raises hist (.draw cam) with
    | some e => simp
    | none =>
      cases h2 : fw.raises (hist ++ [.draw cam]) .swapBuffers with
      | some e => simp
      | none => simp
  · rw [viewportEvent_eq]
    cases h1 : fw.raises hist (.setViewport cam size) with
    | some e => simp
    | none => simp

/-- C9: when the framework calls return normally, one `viewportEvent size` delivered at
any point after construction issues exactly `setViewport size` on the camera created
by the constructor, for every `size` whatever the sign of its components; that call is
neither a `draw()` nor a `swapBuffers()`. -/
theorem viewportEvent_only_sets_viewport (ε : Type) (alloc : List Call → CameraPtr)
    (s : ScenePtr) (argc : Int) (argv : List String) (evs : List Event) (size : Vector2) :
    (TriangleExample.session (Framework.normal ε alloc) s argc argv
          (evs ++ [.viewportEvent size])).trace =
        (TriangleExample.session (Framework.normal ε alloc) s argc argv evs).trace ++
          [.setViewport (createdCamera (Framework.normal ε alloc) s argc argv) size] ∧
      (Call.setViewport (createdCamera (Framework.normal ε alloc) s argc argv) size).isDraw = false ∧
      (Call.setViewport (createdCamera (Framework.normal ε alloc) s argc argv) size).isSwapBuffers =
        false := by
  refine ⟨?_, rfl, rfl⟩
  simp [session_normal, List.flatMap_append, eventCalls]

/-- C10: under any framework, no call issued by the constructor is a `setViewport`, a
`draw()` or a `swapBuffers()`; so when the calls return normally and the first
callback is a `drawEvent`, the trace is the constructor's calls followed at once by
`draw()` on the created camera: no `setViewport` precedes that draw. -/
theorem first_draw_without_viewport (ε : Type) (fw : Framework ε)
    (alloc : List Call → CameraPtr) (s : ScenePtr) (argc : Int) (argv : List String)
    (rest : List Event) :
    (∀ c ∈ (TriangleExample.ctor fw s argc argv []).trace,
        c.isSetViewport = false ∧ c.isDraw = false ∧ c.isSwapBuffers = false) ∧
      ∃ after, (TriangleExample.session (Framework.normal ε alloc) s argc argv
          (.drawEvent :: rest)).trace =
        (TriangleExample.ctor (Framework.normal ε alloc) s argc argv []).trace ++
          .draw (createdCamera (Framework.normal ε alloc) s argc argv) :: after := by
  refine ⟨?_, ?_⟩
  · intro c hc
    exact ctor_trace_kind fw s argc argv c hc
  · refine ⟨.swapBuffers :: rest.flatMap
      (eventCalls (createdCamera (Framework.normal ε alloc) s argc argv)), ?_⟩
    rw [session_normal, ctor_normal]
    simp [List.flatMap_cons, eventCalls]

end Examples
end Magnum
